import Mathlib

/-!
Verification of the two example programs in quantalogic/qllm
(packages/sandbox-docker/example): the Flask Echo Server
(python-flask/app.py) and the Transform Script (python-project/app.py).

The environment is modelled as the optional value of the single variable
INPUT_VALUE (`none` = unset).  The Transform Script's side effects are
modelled by explicit state passing over a filesystem/stdout state, with a
fault oracle deciding whether each filesystem operation raises, and an
event trace recording the order of the side effects.
-/

/-- Embedding of Python `str.upper()` for the strings involved:
uppercase every character. -/
def pyUpper (s : String) : String := ⟨s.data.map Char.toUpper⟩

/-- Embedding of `os.environ.get('INPUT_VALUE', dflt)`: the environment is
the optional value of INPUT_VALUE. -/
def environGet (env : Option String) (dflt : String) : String := env.getD dflt

/-- Body returned by `hello()` in python-flask/app.py:
`f"Hello docker file from Flask! Input: {input_value}"` with
`input_value = os.environ.get('INPUT_VALUE', 'Default Value')`. -/
def hello (env : Option String) : String :=
  "Hello docker file from Flask! Input: " ++ environGet env "Default Value"

namespace Transform

/-- `input_value = os.environ.get('INPUT_VALUE', 'default')` in
python-project/app.py. -/
def input_value (env : Option String) : String := environGet env "default"

/-- `result = f"Processed input: {input_value.upper()}"` in
python-project/app.py. -/
def result (env : Option String) : String :=
  "Processed input: " ++ pyUpper (input_value env)

end Transform

/-- Filesystem/stdout state visible to the Transform Script:
whether `/app/output` exists, the contents of `/app/output/output.txt`
(`none` = absent), and everything written to standard output so far. -/
structure FSState where
  dirExists : Bool
  outputFile : Option String
  stdout : String
deriving DecidableEq

/-- Fault oracle: whether `os.makedirs` would raise if it had to create the
directory, and whether opening/writing the output file raises. -/
structure Faults where
  mkdirFails : Bool
  writeFails : Bool
deriving DecidableEq

/-- One observable side effect of the Transform Script. -/
inductive Event where
  | mkdir (path : String)
  | fileWrite (path contents : String)
  | stdoutWrite (s : String)
deriving DecidableEq

/-- Outcome of a run: final state, process exit code, and the ordered trace
of side effects performed. -/
structure RunResult where
  state : FSState
  exit : Nat
  trace : List Event
deriving DecidableEq

/-- `os.makedirs('/app/output', exist_ok=True)` raises only when the
directory is missing and the fault oracle makes its creation fail; when the
directory already exists, `exist_ok=True` makes the call succeed silently. -/
def mkdirStepFails (st : FSState) (f : Faults) : Bool :=
  !st.dirExists && f.mkdirFails

/-- Module body of python-project/app.py: compute `result`, ensure
`/app/output` exists, open `/app/output/output.txt` for writing with
truncation and write `result`, then print `result` (adding a newline) to
standard output.  An unhandled exception aborts the remaining statements
and the process exits with code 1; otherwise it exits with code 0. -/
def runTransform (env : Option String) (f : Faults) (st : FSState) : RunResult :=
  let r := Transform.result env
  if mkdirStepFails st f then
    { state := st, exit := 1, trace := [] }
  else
    let st1 : FSState := { st with dirExists := true }
    if f.writeFails then
      { state := st1, exit := 1, trace := [Event.mkdir "/app/output"] }
    else
      let st2 : FSState := { st1 with outputFile := some r }
      { state := { st2 with stdout := st2.stdout ++ r ++ "\n" },
        exit := 0,
        trace := [Event.mkdir "/app/output",
                  Event.fileWrite "/app/output/output.txt" r,
                  Event.stdoutWrite (r ++ "\n")] }

/-- Fault oracle for a run in which every filesystem operation succeeds. -/
def noFaults : Faults := ⟨false, false⟩

/-- C1: for every string v bound to INPUT_VALUE, a (fault-free) run of the
Transform Script leaves /app/output/output.txt containing exactly
"Processed input: {V}" with V the uppercased v and no trailing newline,
prints that same string followed by a newline to standard output, and
exits with code 0. -/
theorem c1_transform_output (v : String) (st : FSState) :
    (runTransform (some v) noFaults st).state.outputFile
        = some ("Processed input: " ++ pyUpper v)
    ∧ (runTransform (some v) noFaults st).state.stdout
        = st.stdout ++ ("Processed input: " ++ pyUpper v) ++ "\n"
    ∧ (runTransform (some v) noFaults st).exit = 0 := by
  simp [runTransform, mkdirStepFails, noFaults, Transform.result,
        Transform.input_value, environGet]

/-- C2: for every string v bound to INPUT_VALUE, the Echo Server's response
body for GET / is exactly "Hello docker file from Flask! Input: {v}". -/
theorem c2_echo_body (v : String) :
    hello (some v) = "Hello docker file from Flask! Input: " ++ v := rfl

/-- C3: when INPUT_VALUE is unset, the Echo Server's response body for
GET / is "Hello docker file from Flask! Input: Default Value". -/
theorem c3_echo_default :
    hello none = "Hello docker file from Flask! Input: Default Value" := by
  decide

/-- C4: when INPUT_VALUE is unset, the Transform Script's computed result
string is exactly "Processed input: DEFAULT". -/
theorem c4_transform_default :
    Transform.result none = "Processed input: DEFAULT" := by
  simp only [Transform.result, Transform.input_value, environGet, pyUpper,
             Option.getD]
  decide

/-- C5: every run performs its side effects in exactly the order
mkdir /app/output, then write /app/output/output.txt, then stdout; the
trace of any run is a prefix of that full sequence, and the run performs
the full sequence exactly when it exits 0. -/
theorem c5_effect_order (env : Option String) (f : Faults) (st : FSState) :
    (runTransform env f st).trace <+:
        [Event.mkdir "/app/output",
         Event.fileWrite "/app/output/output.txt" (Transform.result env),
         Event.stdoutWrite (Transform.result env ++ "\n")]
    ∧ ((runTransform env f st).exit = 0 ↔
        (runTransform env f st).trace =
          [Event.mkdir "/app/output",
           Event.fileWrite "/app/output/output.txt" (Transform.result env),
           Event.stdoutWrite (Transform.result env ++ "\n")]) := by
  cases h1 : mkdirStepFails st f <;> cases h2 : f.writeFails <;>
    refine ⟨?_, ?_⟩ <;>
      simp [runTransform, h1, h2]

/-- C6: running the Transform Script twice in succession with the same
INPUT_VALUE leaves /app/output/output.txt with content identical to the
content after a single run: the second run overwrites, nothing
accumulates. -/
theorem c6_idempotent_overwrite (env : Option String) (st : FSState) :
    (runTransform env noFaults
        (runTransform env noFaults st).state).state.outputFile
      = (runTransform env noFaults st).state.outputFile := by
  simp [runTransform, mkdirStepFails, noFaults]

/-- C7: in any state where /app/output already exists, the
directory-creation step succeeds silently (even if the fault oracle would
make a creation attempt fail) and leaves the directory in place. -/
theorem c7_mkdir_idempotent (env : Option String) (f : Faults) (st : FSState)
    (h : st.dirExists = true) :
    mkdirStepFails st f = false
    ∧ (runTransform env f st).state.dirExists = true := by
  have hm : mkdirStepFails st f = false := by
    simp [mkdirStepFails, h]
  refine ⟨hm, ?_⟩
  cases h2 : f.writeFails <;> simp [runTransform, hm, h2, h]

/-- C7 witness: with the directory present and a fault oracle that would
fail both operations, the mkdir step still succeeds. -/
theorem c7_mkdir_idempotent_witness :
    mkdirStepFails ⟨true, none, ""⟩ ⟨true, true⟩ = false
    ∧ (runTransform none ⟨true, true⟩ ⟨true, none, ""⟩).state.dirExists
        = true :=
  c7_mkdir_idempotent none ⟨true, true⟩ ⟨true, none, ""⟩ rfl

/-- C8: the Transform Script exits 0 exactly when the directory-creation
step and the file open/write both succeed, and otherwise exits 1 (the
failure is fatal, with no retry: the exit code is always 0 or 1). -/
theorem c8_exit_codes (env : Option String) (f : Faults) (st : FSState) :
    ((runTransform env f st).exit = 0 ↔
      (mkdirStepFails st f = false ∧ f.writeFails = false))
    ∧ ((runTransform env f st).exit = 0 ∨ (runTransform env f st).exit = 1) := by
  cases h1 : mkdirStepFails st f <;> cases h2 : f.writeFails <;>
    simp [runTransform, h1, h2]

/-- C10: when a run of the Transform Script fails (directory creation or
the file open/write raises), nothing is written to standard output. -/
theorem c10_no_stdout_on_failure (env : Option String) (f : Faults)
    (st : FSState) (h : (runTransform env f st).exit ≠ 0) :
    (runTransform env f st).state.stdout = st.stdout := by
  cases h1 : mkdirStepFails st f <;> cases h2 : f.writeFails <;>
    simp [runTransform, h1, h2] at h ⊢

/-- C10 witness: a concrete failing run (mkdir raises on a missing
directory) leaves standard output empty. -/
theorem c10_no_stdout_on_failure_witness :
    (runTransform none ⟨true, false⟩ ⟨false, none, ""⟩).exit ≠ 0
    ∧ (runTransform none ⟨true, false⟩ ⟨false, none, ""⟩).state.stdout
        = (⟨false, none, ""⟩ : FSState).stdout :=
  ⟨by decide,
   c10_no_stdout_on_failure none ⟨true, false⟩ ⟨false, none, ""⟩ (by decide)⟩
